import Mathlib

/-!
Verification development for the Ecommerce repository's authentication core.

Part 1 embeds the frontend authentication flows (ForgotPassword.js, OTP.js,
Register.js ResetPassword, loginSlice.js) as executable Lean definitions.
Part 2 models the backend authentication core (Token Service, OTP Manager,
Revocation Store, Rate Limiter, Auth Orchestrator) from the specification,
since the Django backend sources are not part of the checked-in tree.
Part 3 states and proves the claims.
-/

/-
===========================================================================
Part 1a: JavaScript string / regex primitives used by the frontend code
===========================================================================
-/

/-- Whitespace characters recognised by JavaScript `String.prototype.trim`
(WhiteSpace and LineTerminator productions). -/
def isJsWhitespace (c : Char) : Bool :=
  c.toNat == 32 || c.toNat == 9 || c.toNat == 10 || c.toNat == 11 || c.toNat == 12 ||
  c.toNat == 13 || c.toNat == 160 || c.toNat == 0x1680 ||
  (0x2000 ≤ c.toNat && c.toNat ≤ 0x200A) ||
  c.toNat == 0x2028 || c.toNat == 0x2029 || c.toNat == 0x202F ||
  c.toNat == 0x205F || c.toNat == 0x3000 || c.toNat == 0xFEFF

/-- `s.trim()` is the empty string, i.e. every character of `s` is JS whitespace.
The frontend guards of the form `if (!s.trim())` test exactly this. -/
def jsTrimEmpty (s : String) : Bool := s.toList.all isJsWhitespace

/-- ASCII decimal digit, the character class `[0-9]`. -/
def isAsciiDigit (c : Char) : Bool := 48 ≤ c.toNat && c.toNat ≤ 57

/-- ASCII uppercase letter, the character class `[A-Z]`. -/
def isAsciiUpper (c : Char) : Bool := 65 ≤ c.toNat && c.toNat ≤ 90

/-- The character class `[\W_]` of JavaScript regexes: everything that is not an
ASCII letter or digit (`\W` is the complement of `[A-Za-z0-9_]`, and the
underscore is added back by the explicit `_`). -/
def isJsSpecial (c : Char) : Bool :=
  !((65 ≤ c.toNat && c.toNat ≤ 90) || (97 ≤ c.toNat && c.toNat ≤ 122) ||
    (48 ≤ c.toNat && c.toNat ≤ 57))

/-- JavaScript line terminators, which `.` does not match (no `s` flag is used
anywhere in the frontend regexes). -/
def isLineTerminator (c : Char) : Bool :=
  c.toNat == 10 || c.toNat == 13 || c.toNat == 0x2028 || c.toNat == 0x2029

/-- Matching of the lookahead body `.*P` against a suffix of the subject:
either the class `P` matches the current character, or `.` consumes it (it is
not a line terminator) and matching continues. -/
def dotStarReach (p : Char → Bool) : List Char → Bool
  | [] => false
  | c :: rest => p c || (!isLineTerminator c && dotStarReach p rest)

/-- An unanchored regex `test` tries the pattern at every start position. -/
def anyStartPos (p : List Char → Bool) : List Char → Bool
  | [] => p []
  | c :: rest => p (c :: rest) || anyStartPos p rest

/-- `/(?=.*[A-Z])(?=.*[\W_])/.test(s)` (Register.js `validatePasswords`): at
some start position, both lookaheads succeed. -/
def upperSpecialTest (s : String) : Bool :=
  anyStartPos
    (fun l => dotStarReach isAsciiUpper l && dotStarReach isJsSpecial l)
    s.toList

/-- `/^923[0-9]{9}$/.test(s)` (ForgotPassword.js `validatePhone`): the whole
string is the literal `923` followed by exactly nine decimal digits. -/
def phoneRegexTest (s : String) : Bool :=
  match s.toList with
  | c1 :: c2 :: c3 :: rest =>
      c1 == '9' && c2 == '2' && c3 == '3' && rest.length == 9 && rest.all isAsciiDigit
  | _ => false

/-- `/^[0-9]$/.test(s)` (OTP.js `handleChange`): exactly one decimal digit. -/
def singleDigitTest (s : String) : Bool :=
  match s.toList with
  | [c] => isAsciiDigit c
  | _ => false

/-
===========================================================================
Part 1b: ForgotPassword.js
===========================================================================
-/

/-- `validatePhone` of ForgotPassword.js: the error message set (if any).
`none` means validation passed. -/
def validatePhoneError (phone : String) : Option String :=
  if jsTrimEmpty phone then some "Phone number is required"
  else if !phoneRegexTest phone then
    some "Please enter a valid Pakistani phone number (923xxxxxxxxx)"
  else none

/-- `handleSubmit` of ForgotPassword.js sends the OTP-issuance request exactly
when `validatePhone()` returned true. -/
def forgotPasswordSubmits (phone : String) : Bool :=
  (validatePhoneError phone).isNone

/-
===========================================================================
Part 1c: ResetPassword (Register.js)
===========================================================================
-/

/-- `validatePasswords` of Register.js (ResetPassword component): the error
message set (if any); `none` means validation passed. -/
def validatePasswordsError (password confirmPassword : String) : Option String :=
  if jsTrimEmpty password then some "Password is required"
  else if password.length < 8 then
    some "Password must be at least 8 characters long"
  else if !upperSpecialTest password then
    some "Password must contain at least one uppercase letter and one special character"
  else if jsTrimEmpty confirmPassword then some "Please confirm your password"
  else if password ≠ confirmPassword then some "Passwords do not match"
  else none

/-- `handleSubmit` of ResetPassword sends the password-change request exactly
when `validatePasswords()` returned true. -/
def resetPasswordSubmits (password confirmPassword : String) : Bool :=
  (validatePasswordsError password confirmPassword).isNone

/-- The password contains an ASCII uppercase letter. -/
def containsUpper (s : String) : Bool := s.toList.any isAsciiUpper

/-- The password contains a special (non-alphanumeric) character. -/
def containsSpecial (s : String) : Bool := s.toList.any isJsSpecial

/-- The string is free of JavaScript line terminators (always true for values
of a single-line HTML input). -/
def noLineTerminator (s : String) : Bool := s.toList.all (fun c => !isLineTerminator c)

/-
===========================================================================
Part 1d: OTP.js input component
===========================================================================
-/

/-- State of the six OTP input boxes of OTP.js: `otp` is an array of six
strings, each initially empty. -/
structure OtpInputState where
  slots : List String
deriving DecidableEq, Repr

/-- `useState(new Array(6).fill(""))` -/
def otpInitialState : OtpInputState := ⟨List.replicate 6 ""⟩

/-- `handleChange` of OTP.js: a keystroke value is stored into box `i` only
when it passes `/^[0-9]$/`; otherwise the component state is unchanged (the
DOM value is cleared). -/
def otpHandleChange (st : OtpInputState) (i : Nat) (value : String) : OtpInputState :=
  if singleDigitTest value then ⟨st.slots.set i value⟩ else st

/-- The candidate code `otp.join("")` as a character list. -/
def otpCodeChars (st : OtpInputState) : List Char :=
  (st.slots.map String.toList).flatten

/-- The candidate code `otp.join("")`. -/
def otpJoin (st : OtpInputState) : String := String.mk (otpCodeChars st)

/-- `handleSubmit` of OTP.js performs the verification request exactly when
the joined code has length 6 (otherwise it sets the incomplete-OTP error and
returns before the fetch). -/
def otpSubmitSends (st : OtpInputState) : Bool := (otpJoin st).length == 6

/-- The states the OTP boxes can actually be in: the initial state and
everything reachable from it by keystrokes. -/
inductive OtpReachable : OtpInputState → Prop where
  | init : OtpReachable otpInitialState
  | change (st : OtpInputState) (i : Nat) (value : String) :
      OtpReachable st → OtpReachable (otpHandleChange st i value)

/-
===========================================================================
Part 1e: fetch outcomes of the frontend submit handlers
===========================================================================
-/

/-- Outcome of a `fetch` as the frontend handlers see it: either the request
itself failed (network/infrastructure failure, landing in the `catch` branch)
or a response arrived, carrying `response.ok` and the parsed `data.message`. -/
inductive FetchOutcome where
  | netFailure : FetchOutcome
  | response (ok : Bool) (message : Option String) : FetchOutcome
deriving DecidableEq, Repr

/-- The user-visible result of a submit handler: the `status` state variable
and the `error` message shown (empty when none). -/
structure SubmitView where
  status : String
  errorMsg : String
deriving DecidableEq, Repr

/-- The message both frontend `catch` branches display on a failed request. -/
def networkErrorMsg : String := "Network error. Please check your connection and try again."

/-- `handleSubmit` of OTP.js, after the fetch: `catch` shows the network
message; a non-ok response shows the server's `data.message` (or a default);
an ok response succeeds. -/
def otpSubmitView : FetchOutcome → SubmitView
  | .netFailure => ⟨"error", networkErrorMsg⟩
  | .response true _ => ⟨"success", ""⟩
  | .response false m => ⟨"error", m.getD "Invalid OTP. Please try again."⟩

/-- `handleSubmit` of ForgotPassword.js, after the fetch. -/
def forgotSubmitView : FetchOutcome → SubmitView
  | .netFailure => ⟨"error", networkErrorMsg⟩
  | .response true _ => ⟨"success", ""⟩
  | .response false m => ⟨"error", m.getD "Failed to send OTP. Please try again."⟩

/-
===========================================================================
Part 2: backend authentication core, modelled from the spec
===========================================================================
-/

/-- Modelled from the spec: the hash functions of the credential store and the
OTP Manager (password hashing, OTP code hashing). The spec relies only on the
hash being deterministic and collision-free on the inputs used; it is modelled
as an injective placeholder. -/
def hashStr (s : String) : String := "#" ++ s

/-- Modelled from the spec: an Account of the external credential store. -/
structure Account where
  phone : String
  passwordHash : String
  role : String
  active : Bool
deriving DecidableEq, Repr

/-- Modelled from the spec: a self-contained access token
{account id, role, issued-at, expires-at, jti}. Signature validity is by
construction: every token value of this type plays the role of a
correctly-signed token. -/
structure AccessToken where
  accountId : String
  role : String
  issuedAt : Nat
  expiresAt : Nat
  jti : Nat
deriving DecidableEq, Repr

/-- Modelled from the spec: the refresh token handed to the caller, carrying
its jti, subject and absolute expiry. -/
structure RefreshToken where
  jti : Nat
  accountId : String
  expiresAt : Nat
deriving DecidableEq, Repr

/-- Modelled from the spec: the persisted RefreshToken record
{jti, account id, issued-at, expires-at, rotation-generation, revoked}. -/
structure RefreshRecord where
  jti : Nat
  accountId : String
  issuedAt : Nat
  expiresAt : Nat
  generation : Nat
  revoked : Bool
deriving DecidableEq, Repr

/-- Modelled from the spec: a RevocationEntry {jti, expires-at} of the
Revocation Store. -/
structure RevocationEntry where
  jti : Nat
  expiresAt : Nat
deriving DecidableEq, Repr

/-- Modelled from the spec: an OTPRecord {phone, code-hash, created-at,
expires-at, attempt-count, consumed}, plus the explicit reset-applied flag the
spec calls for so a consumed record cannot be used for two resets. -/
structure OTPRecord where
  phone : String
  codeHash : String
  createdAt : Nat
  expiresAt : Nat
  attempts : Nat
  consumed : Bool
  resetApplied : Bool
deriving DecidableEq, Repr

/-- Modelled from the spec: a RateLimitCounter {key, window-start, count}. -/
structure RateCounter where
  key : String
  windowStart : Nat
  count : Nat
deriving DecidableEq, Repr

/-- Modelled from the spec: the shared mutable state of the authentication
core. `nextJti` models the entropy source for globally unique jtis;
`nextOtpSeed` models the cryptographic randomness of OTP generation. -/
structure AuthState where
  accounts : List Account
  refreshRecords : List RefreshRecord
  revocations : List RevocationEntry
  otps : List OTPRecord
  rateCounters : List RateCounter
  nextJti : Nat
  nextOtpSeed : Nat
deriving DecidableEq, Repr

/-- The empty initial state. -/
def initialAuthState : AuthState := ⟨[], [], [], [], [], 0, 0⟩

/-- Modelled from the spec: Revocation Store membership — inserted and not
yet past its expiry. -/
def revContains (l : List RevocationEntry) (j : Nat) (now : Nat) : Bool :=
  l.any (fun e => e.jti == j && now ≤ e.expiresAt)

/-- Modelled from the spec: Revocation Store `put`. -/
def revPut (l : List RevocationEntry) (j : Nat) (expiresAt : Nat) : List RevocationEntry :=
  ⟨j, expiresAt⟩ :: l

/-- Access-token time-to-live (spec: short, e.g. 1 hour). -/
def accessTTL : Nat := 3600

/-- Refresh-token time-to-live (spec: long, e.g. 7 days). -/
def refreshTTL : Nat := 604800

/-- OTP time-to-live (spec: 5 minutes). -/
def otpTTL : Nat := 300

/-- OTP attempt-count ceiling (spec: e.g. 5). -/
def otpCeiling : Nat := 5

def lookupAccount (l : List Account) (phone : String) : Option Account :=
  l.find? (fun a => a.phone == phone)

def lookupRefresh (l : List RefreshRecord) (j : Nat) : Option RefreshRecord :=
  l.find? (fun r => r.jti == j)

/-- Mark every refresh record with the given jti revoked. -/
def markRevoked (l : List RefreshRecord) (j : Nat) : List RefreshRecord :=
  l.map (fun r => if r.jti == j then { r with revoked := true } else r)

/-- Mark every refresh record of the given account revoked (used when a
password reset invalidates existing sessions). -/
def revokeAllFor (l : List RefreshRecord) (phone : String) : List RefreshRecord :=
  l.map (fun r => if r.accountId == phone then { r with revoked := true } else r)

def lookupOtp (l : List OTPRecord) (phone : String) : Option OTPRecord :=
  l.find? (fun r => r.phone == phone)

def removeOtp (l : List OTPRecord) (phone : String) : List OTPRecord :=
  l.filter (fun r => !(r.phone == phone))

def updateOtp (l : List OTPRecord) (phone : String) (f : OTPRecord → OTPRecord) :
    List OTPRecord :=
  l.map (fun r => if r.phone == phone then f r else r)

/-- Modelled from the spec: the 6-digit, left-zero-padded decimal code drawn
uniformly over 000000–999999 from the randomness source. -/
def padCode (n : Nat) : String :=
  let m := n % 1000000
  String.mk [Nat.digitChar (m / 100000 % 10), Nat.digitChar (m / 10000 % 10),
             Nat.digitChar (m / 1000 % 10), Nat.digitChar (m / 100 % 10),
             Nat.digitChar (m / 10 % 10), Nat.digitChar (m % 10)]

/-- Modelled from the spec: the fixed-window Rate Limiter `allow`. The counter
is created lazily, restarted when the window has elapsed, and not incremented
further once the limit is hit. -/
def rlAllow (l : List RateCounter) (k : String) (limit window now : Nat) :
    Bool × List RateCounter :=
  match l.find? (fun c => c.key == k) with
  | none => (true, ⟨k, now, 1⟩ :: l)
  | some c =>
      if c.windowStart + window ≤ now then
        (true, l.map (fun d => if d.key == k then ⟨k, now, 1⟩ else d))
      else if limit ≤ c.count then (false, l)
      else (true, l.map (fun d => if d.key == k then ⟨k, c.windowStart, c.count + 1⟩ else d))

/-
Token Service (modelled from the spec, §4.3)
-/

/-- Modelled from the spec: `issue_pair(account)` — mint a fresh access token
and a fresh refresh token record (generation 0, revoked = false), persist the
refresh record, return both tokens. -/
def issuePair (s : AuthState) (acct : Account) (now : Nat) :
    (AccessToken × RefreshToken) × AuthState :=
  let atok : AccessToken := ⟨acct.phone, acct.role, now, now + accessTTL, s.nextJti⟩
  let rtok : RefreshToken := ⟨s.nextJti + 1, acct.phone, now + refreshTTL⟩
  let rrec : RefreshRecord := ⟨s.nextJti + 1, acct.phone, now, now + refreshTTL, 0, false⟩
  ((atok, rtok),
    { s with refreshRecords := rrec :: s.refreshRecords, nextJti := s.nextJti + 2 })

inductive VerifyAccessResult where
  | valid (accountId role : String) : VerifyAccessResult
  | INVALID : VerifyAccessResult
deriving DecidableEq, Repr

/-- Modelled from the spec: `verify_access(token)` — INVALID when expired or
when the token's jti appears in the Revocation Store. -/
def verifyAccess (s : AuthState) (tok : AccessToken) (now : Nat) : VerifyAccessResult :=
  if tok.expiresAt < now then .INVALID
  else if revContains s.revocations tok.jti now then .INVALID
  else .valid tok.accountId tok.role

inductive RotateResult where
  | ok (access : AccessToken) (refresh : RefreshToken) : RotateResult
  | INVALID_TOKEN : RotateResult
deriving DecidableEq, Repr

/-- Modelled from the spec: `rotate(refresh_token)` — INVALID on expiry, on a
missing record, on a revoked record, or on a revocation-store hit; on success
revoke the old jti (into the Revocation Store with the record's expiry), mark
the old record revoked, and mint a fresh pair at rotation-generation + 1. -/
def rotate (s : AuthState) (tok : RefreshToken) (now : Nat) : RotateResult × AuthState :=
  if tok.expiresAt < now then (.INVALID_TOKEN, s)
  else
    match lookupRefresh s.refreshRecords tok.jti with
    | none => (.INVALID_TOKEN, s)
    | some r =>
        if r.revoked || revContains s.revocations r.jti now || decide (r.expiresAt < now) then
          (.INVALID_TOKEN, s)
        else
          match lookupAccount s.accounts r.accountId with
          | none => (.INVALID_TOKEN, s)
          | some acct =>
              let atok : AccessToken :=
                ⟨r.accountId, acct.role, now, now + accessTTL, s.nextJti⟩
              let rtok : RefreshToken := ⟨s.nextJti + 1, r.accountId, now + refreshTTL⟩
              let rrec : RefreshRecord :=
                ⟨s.nextJti + 1, r.accountId, now, now + refreshTTL, r.generation + 1, false⟩
              (.ok atok rtok,
                { s with
                    refreshRecords := rrec :: markRevoked s.refreshRecords tok.jti,
                    revocations := revPut s.revocations r.jti r.expiresAt,
                    nextJti := s.nextJti + 2 })

/-- Modelled from the spec: `revoke(refresh_token)` as used by logout — mark
the refresh record revoked, insert a Revocation Store entry for its jti, and
blacklist the presented access token's jti for the rest of its natural TTL
(the spec's §8 requires the access token to verify INVALID right after
logout). -/
def revoke (s : AuthState) (atok : AccessToken) (rtok : RefreshToken) (_now : Nat) :
    AuthState :=
  { s with
      refreshRecords := markRevoked s.refreshRecords rtok.jti,
      revocations := revPut (revPut s.revocations rtok.jti rtok.expiresAt)
                        atok.jti atok.expiresAt }

/-
OTP Manager (modelled from the spec, §4.2)
-/

/-- Modelled from the spec: `issue(phone)` — generate the 6-digit code, store
only its hash with expiry now + 5 minutes, attempt-count 0, consumed = false,
superseding any prior record for the phone. Returns the plaintext code. -/
def otpIssue (s : AuthState) (phone : String) (now : Nat) : String × AuthState :=
  let code := padCode s.nextOtpSeed
  let record : OTPRecord := ⟨phone, hashStr code, now, now + otpTTL, 0, false, false⟩
  (code, { s with otps := record :: removeOtp s.otps phone, nextOtpSeed := s.nextOtpSeed + 1 })

inductive OtpVerifyResult where
  | VERIFIED : OtpVerifyResult
  | MISMATCH : OtpVerifyResult
  | EXPIRED : OtpVerifyResult
  | LOCKED : OtpVerifyResult
  | NOT_FOUND : OtpVerifyResult
deriving DecidableEq, Repr

/-- Modelled from the spec: `verify(phone, candidate)` — NOT_FOUND without a
live (present, unconsumed) record; EXPIRED past the expiry (discarding the
record); LOCKED at the attempt ceiling; otherwise compare hashes — MISMATCH
increments the attempt count, a match consumes the record and is VERIFIED. -/
def otpVerify (s : AuthState) (phone candidate : String) (now : Nat) :
    OtpVerifyResult × AuthState :=
  match lookupOtp s.otps phone with
  | none => (.NOT_FOUND, s)
  | some r =>
      if r.consumed then (.NOT_FOUND, s)
      else if r.expiresAt < now then (.EXPIRED, { s with otps := removeOtp s.otps phone })
      else if otpCeiling ≤ r.attempts then (.LOCKED, s)
      else if hashStr candidate ≠ r.codeHash then
        (.MISMATCH,
          { s with otps := updateOtp s.otps phone (fun q => { q with attempts := q.attempts + 1 }) })
      else
        (.VERIFIED,
          { s with otps := updateOtp s.otps phone (fun q => { q with consumed := true }) })

/-
Auth Orchestrator (modelled from the spec, §4.5)
-/

inductive RegisterResult where
  | ok : RegisterResult
  | DUPLICATE_ACCOUNT : RegisterResult
  | RATE_LIMITED : RegisterResult
deriving DecidableEq, Repr

/-- Modelled from the spec: `register(phone, password, profile)`. -/
def registerOp (s : AuthState) (ip phone password role : String) (now : Nat) :
    RegisterResult × AuthState :=
  let rl := rlAllow s.rateCounters (ip ++ "|register") 5 60 now
  let s0 := { s with rateCounters := rl.2 }
  if !rl.1 then (.RATE_LIMITED, s0)
  else
    match lookupAccount s0.accounts phone with
    | some _ => (.DUPLICATE_ACCOUNT, s0)
    | none =>
        (.ok, { s0 with accounts := ⟨phone, hashStr password, role, true⟩ :: s0.accounts })

inductive LoginResult where
  | ok (access : AccessToken) (refresh : RefreshToken) : LoginResult
  | INVALID_CREDENTIALS : LoginResult
  | RATE_LIMITED : LoginResult
deriving DecidableEq, Repr

/-- Modelled from the spec: `login(phone, password)` — rate limit, verify the
password hash via the collaborator, then `issue_pair`; a missing account and a
wrong password are indistinguishable (INVALID_CREDENTIALS). -/
def loginOp (s : AuthState) (ip phone password : String) (now : Nat) :
    LoginResult × AuthState :=
  let rl := rlAllow s.rateCounters (ip ++ "|login|" ++ phone) 10 60 now
  let s0 := { s with rateCounters := rl.2 }
  if !rl.1 then (.RATE_LIMITED, s0)
  else
    match lookupAccount s0.accounts phone with
    | none => (.INVALID_CREDENTIALS, s0)
    | some a =>
        if hashStr password == a.passwordHash then
          (.ok (issuePair s0 a now).1.1 (issuePair s0 a now).1.2, (issuePair s0 a now).2)
        else (.INVALID_CREDENTIALS, s0)

inductive ForgotResult where
  | sent (otpPlain : String) : ForgotResult
  | RATE_LIMITED : ForgotResult
deriving DecidableEq, Repr

/-- Modelled from the spec: `forgot_password(phone)` — rate-limited OTP issue;
the plaintext goes to the external notifier (fire and forget). -/
def forgotPasswordOp (s : AuthState) (ip phone : String) (now : Nat) :
    ForgotResult × AuthState :=
  let rl := rlAllow s.rateCounters (ip ++ "|forgot|" ++ phone) 3 60 now
  let s0 := { s with rateCounters := rl.2 }
  if !rl.1 then (.RATE_LIMITED, s0)
  else (.sent (otpIssue s0 phone now).1, (otpIssue s0 phone now).2)

inductive VerifyOtpOutcome where
  | otp (r : OtpVerifyResult) : VerifyOtpOutcome
  | RATE_LIMITED : VerifyOtpOutcome
deriving DecidableEq, Repr

/-- Modelled from the spec: `verify_otp(phone, code)` — rate-limited delegate
to the OTP Manager's `verify`. -/
def verifyOtpOp (s : AuthState) (ip phone code : String) (now : Nat) :
    VerifyOtpOutcome × AuthState :=
  let rl := rlAllow s.rateCounters (ip ++ "|verify-otp|" ++ phone) 10 60 now
  let s0 := { s with rateCounters := rl.2 }
  if !rl.1 then (.RATE_LIMITED, s0)
  else (.otp (otpVerify s0 phone code now).1, (otpVerify s0 phone code now).2)

inductive ResetResult where
  | ok : ResetResult
  | RESET_NOT_READY : ResetResult
  | NO_ACCOUNT : ResetResult
deriving DecidableEq, Repr

/-- The reset gate of the spec: the most recent OTPRecord for the phone is
consumed and has not already been used to complete a reset. -/
def resetGate (s : AuthState) (phone : String) : Bool :=
  match lookupOtp s.otps phone with
  | none => false
  | some r => r.consumed && !r.resetApplied

/-- Write the new password hash for the account. -/
def setPasswordHash (l : List Account) (phone h : String) : List Account :=
  l.map (fun a => if a.phone == phone then { a with passwordHash := h } else a)

/-- Modelled from the spec: `reset_password(phone, new_password)` — requires
the reset gate; on success writes the new hash via the credential store, marks
the reset applied on the OTP record, and revokes all refresh tokens of the
account (the spec's session-invalidation side effect). -/
def resetPasswordOp (s : AuthState) (phone newPassword : String) (_now : Nat) :
    ResetResult × AuthState :=
  if !resetGate s phone then (.RESET_NOT_READY, s)
  else
    match lookupAccount s.accounts phone with
    | none => (.NO_ACCOUNT, s)
    | some _ =>
        (.ok,
          { s with
              accounts := setPasswordHash s.accounts phone (hashStr newPassword),
              otps := updateOtp s.otps phone (fun r => { r with resetApplied := true }),
              refreshRecords := revokeAllFor s.refreshRecords phone })

/-- The operations of the orchestrator's exposed surface, for reasoning about
arbitrary continuations of a trace. -/
inductive AuthOp where
  | register (ip phone password role : String) : AuthOp
  | login (ip phone password : String) : AuthOp
  | refresh (tok : RefreshToken) : AuthOp
  | logout (atok : AccessToken) (rtok : RefreshToken) : AuthOp
  | forgotPassword (ip phone : String) : AuthOp
  | verifyOtp (ip phone code : String) : AuthOp
  | resendOtp (ip phone : String) : AuthOp
  | resetPassword (phone newPassword : String) : AuthOp
deriving DecidableEq, Repr

/-- The state transition of one orchestrator operation (`resend_otp` is the
spec's "equivalent to issue", under the forgot-password budget). -/
def stepOp (s : AuthState) (op : AuthOp) (now : Nat) : AuthState :=
  match op with
  | .register ip phone password role => (registerOp s ip phone password role now).2
  | .login ip phone password => (loginOp s ip phone password now).2
  | .refresh tok => (rotate s tok now).2
  | .logout atok rtok => revoke s atok rtok now
  | .forgotPassword ip phone => (forgotPasswordOp s ip phone now).2
  | .verifyOtp ip phone code => (verifyOtpOp s ip phone code now).2
  | .resendOtp ip phone => (forgotPasswordOp s ip phone now).2
  | .resetPassword phone newPassword => (resetPasswordOp s phone newPassword now).2

/-- Run a list of timestamped operations. -/
def runOps (s : AuthState) : List (AuthOp × Nat) → AuthState
  | [] => s
  | p :: rest => runOps (stepOp s p.1 p.2) rest

/-- Does the operation issue a fresh OTP for the given phone? -/
def issuesOtpFor (op : AuthOp) (phone : String) : Bool :=
  match op with
  | .forgotPassword _ p => p == phone
  | .resendOtp _ p => p == phone
  | _ => false

/-- Well-formedness of jti bookkeeping: every persisted refresh record's jti
is below the next-jti source, so freshly minted jtis never collide. -/
def RefreshWF (s : AuthState) : Prop :=
  ∀ r ∈ s.refreshRecords, r.jti < s.nextJti

/-- Every persisted refresh record carrying the given jti is marked revoked. -/
def allRevokedAt (l : List RefreshRecord) (j : Nat) : Prop :=
  ∀ r ∈ l, r.jti = j → r.revoked = true

/-- The current OTP record for the phone exists and is consumed. -/
def ConsumedOtpAt (s : AuthState) (phone : String) : Prop :=
  ∃ r, lookupOtp s.otps phone = some r ∧ r.consumed = true

/-- Shape invariant of the OTP input boxes: six slots, each empty or holding
one decimal digit. -/
def OtpSlotsOk (st : OtpInputState) : Prop :=
  st.slots.length = 6 ∧
    ∀ x ∈ st.slots, x.toList = [] ∨ ∃ c, isAsciiDigit c = true ∧ x.toList = [c]

/-
===========================================================================
Part 3: theorems
===========================================================================
-/

/-
Helper lemmas on the JS character classes and regex fragments.
-/

theorem isAsciiUpper_not_whitespace (c : Char) (h : isAsciiUpper c = true) :
    isJsWhitespace c = false := by
  simp only [isAsciiUpper, Bool.and_eq_true, decide_eq_true_eq] at h
  simp only [isJsWhitespace, Bool.or_eq_false_iff, Bool.and_eq_false_iff,
    beq_eq_false_iff_ne, ne_eq, decide_eq_false_iff_not, not_le]
  omega

theorem dotStarReach_any (p : Char → Bool) (l : List Char)
    (h : dotStarReach p l = true) : l.any p = true := by
  induction l with
  | nil => simp [dotStarReach] at h
  | cons c rest ih =>
    simp only [dotStarReach, Bool.or_eq_true, Bool.and_eq_true] at h
    rcases h with h | ⟨-, h⟩
    · simp [List.any_cons, h]
    · simp [List.any_cons, ih h]

theorem dotStarReach_eq_any (p : Char → Bool) (l : List Char)
    (h : ∀ c ∈ l, isLineTerminator c = false) : dotStarReach p l = l.any p := by
  induction l with
  | nil => simp [dotStarReach]
  | cons c rest ih =>
    have hc : isLineTerminator c = false := h c (List.mem_cons_self c rest)
    have hr : ∀ d ∈ rest, isLineTerminator d = false :=
      fun d hd => h d (List.mem_cons_of_mem c hd)
    simp [dotStarReach, hc, ih hr, List.any_cons]

theorem upperSpecial_sound (l : List Char)
    (h : anyStartPos
        (fun t => dotStarReach isAsciiUpper t && dotStarReach isJsSpecial t) l = true) :
    l.any isAsciiUpper = true ∧ l.any isJsSpecial = true := by
  induction l with
  | nil => simp [anyStartPos, dotStarReach] at h
  | cons c rest ih =>
    simp only [anyStartPos, Bool.or_eq_true] at h
    rcases h with h | h
    · simp only [Bool.and_eq_true] at h
      exact ⟨dotStarReach_any _ _ h.1, dotStarReach_any _ _ h.2⟩
    · have := ih h
      constructor
      · simp [List.any_cons, this.1]
      · simp [List.any_cons, this.2]

theorem upperSpecial_complete (l : List Char)
    (hnt : ∀ c ∈ l, isLineTerminator c = false)
    (hu : l.any isAsciiUpper = true) (hs : l.any isJsSpecial = true) :
    anyStartPos
      (fun t => dotStarReach isAsciiUpper t && dotStarReach isJsSpecial t) l = true := by
  cases l with
  | nil => simp at hu
  | cons c rest =>
    simp only [anyStartPos, Bool.or_eq_true]
    left
    rw [dotStarReach_eq_any _ _ hnt, dotStarReach_eq_any _ _ hnt]
    simp [hu, hs]

theorem containsUpper_not_trimEmpty (s : String)
    (h : containsUpper s = true) : jsTrimEmpty s = false := by
  unfold containsUpper at h
  unfold jsTrimEmpty
  rcases List.any_eq_true.mp h with ⟨c, hc, hcu⟩
  refine List.all_eq_false.mpr ⟨c, hc, ?_⟩
  simp [isAsciiUpper_not_whitespace c hcu]

/-- C9: `forgot_password` sends the OTP-issuance request if and only if the
submitted phone matches `^923[0-9]{9}$` — the literal prefix 923 followed by
exactly nine decimal digits; on every other input a validation error is set
and no request is sent. -/
theorem forgot_password_submits_iff_pk_phone (phone : String) :
    forgotPasswordSubmits phone = phoneRegexTest phone
  ∧ (phoneRegexTest phone = true ↔
      ∃ rest, phone.toList = '9' :: '2' :: '3' :: rest ∧
        rest.length = 9 ∧ rest.all isAsciiDigit = true)
  ∧ (forgotPasswordSubmits phone = false → validatePhoneError phone ≠ none) := by
  have hmatch : phoneRegexTest phone = true ↔
      ∃ rest, phone.toList = '9' :: '2' :: '3' :: rest ∧
        rest.length = 9 ∧ rest.all isAsciiDigit = true := by
    unfold phoneRegexTest
    split
    case h_1 c1 c2 c3 rest heq =>
      simp only [Bool.and_eq_true, beq_iff_eq]
      constructor
      · rintro ⟨⟨⟨⟨h1, h2⟩, h3⟩, h4⟩, h5⟩
        exact ⟨rest, by rw [heq, h1, h2, h3], h4, h5⟩
      · rintro ⟨rest2, heq2, hlen, hdig⟩
        rw [heq] at heq2
        obtain ⟨e1, e2, e3, e4⟩ : c1 = '9' ∧ c2 = '2' ∧ c3 = '3' ∧ rest = rest2 := by
          injection heq2 with a b
          injection b with b c
          injection c with c d
          exact ⟨a, b, c, d⟩
        subst e4
        exact ⟨⟨⟨⟨e1, e2⟩, e3⟩, hlen⟩, hdig⟩
    case h_2 hno =>
      simp only [Bool.false_eq_true, false_iff, not_exists]
      intro rest hcontra
      exact hno _ _ _ _ hcontra.1
  refine ⟨?_, hmatch, ?_⟩
  · unfold forgotPasswordSubmits validatePhoneError
    by_cases hw : jsTrimEmpty phone = true
    · simp only [hw, if_true, Option.isNone_some]
      cases hreg : phoneRegexTest phone
      · rfl
      · exfalso
        rcases hmatch.mp hreg with ⟨rest, heq, -, -⟩
        have h9 : '9' ∈ phone.toList := by rw [heq]; exact List.mem_cons_self _ _
        have := List.all_eq_true.mp (by unfold jsTrimEmpty at hw; exact hw) '9' h9
        simp [isJsWhitespace] at this
    · simp only [Bool.not_eq_true] at hw
      simp only [hw, Bool.false_eq_true, if_false]
      cases hreg : phoneRegexTest phone <;> simp [hreg]
  · intro h
    unfold forgotPasswordSubmits at h
    intro hnone
    rw [hnone] at h
    simp at h

/-- Witness for C9 at concrete inputs. -/
theorem forgot_password_submits_iff_pk_phone_witness :
    forgotPasswordSubmits "923001234567" = true ∧
    validatePhoneError "0300123456" ≠ none := by
  constructor
  · rw [(forgot_password_submits_iff_pk_phone "923001234567").1]; decide
  · exact (forgot_password_submits_iff_pk_phone "0300123456").2.2 (by decide)

/-- C10 counterexample: the password `"!bbbbbb\nAAAA"` (equal to its
confirmation) is 12 characters long, contains an uppercase letter and a
special character, yet `validatePasswords` rejects it and no request is sent:
the `.` of the JavaScript lookaheads `(?=.*[A-Z])(?=.*[\W_])` cannot cross the
embedded line terminator, so no start position sees both classes. -/
theorem reset_password_submit_claim_fails :
    resetPasswordSubmits "!bbbbbb\nAAAA" "!bbbbbb\nAAAA" = false ∧
    8 ≤ ("!bbbbbb\nAAAA" : String).length ∧
    containsUpper "!bbbbbb\nAAAA" = true ∧
    containsSpecial "!bbbbbb\nAAAA" = true := by decide

/-- C10 amended: for passwords free of line terminators (the only values a
single-line HTML password input can hold), `reset_password` submits the
password-change request iff the password is at least 8 characters long,
contains an uppercase letter and a special (non-alphanumeric, or underscore)
character, and equals its confirmation; otherwise a validation message is set
and no request is sent. -/
theorem reset_password_submits_iff_valid (pw cpw : String)
    (hnl : noLineTerminator pw = true) :
    (resetPasswordSubmits pw cpw = true ↔
      (8 ≤ pw.length ∧ containsUpper pw = true ∧ containsSpecial pw = true ∧ pw = cpw))
  ∧ (resetPasswordSubmits pw cpw = false → validatePasswordsError pw cpw ≠ none) := by
  have hnt : ∀ c ∈ pw.toList, isLineTerminator c = false := by
    intro c hc
    have := List.all_eq_true.mp (by unfold noLineTerminator at hnl; exact hnl) c hc
    simpa using this
  constructor
  · unfold resetPasswordSubmits validatePasswordsError
    constructor
    · intro h
      by_cases hw : jsTrimEmpty pw = true
      · simp [hw] at h
      · simp only [Bool.not_eq_true] at hw
        simp only [hw, Bool.false_eq_true, if_false] at h
        by_cases hlen : pw.length < 8
        · simp [hlen] at h
        · simp only [hlen, if_false] at h
          cases hus : upperSpecialTest pw
          · simp [hus] at h
          · simp only [hus, Bool.not_true, Bool.false_eq_true, if_false] at h
            have hboth := upperSpecial_sound pw.toList (by unfold upperSpecialTest at hus; exact hus)
            by_cases hwc : jsTrimEmpty cpw = true
            · simp [hwc] at h
            · simp only [Bool.not_eq_true] at hwc
              simp only [hwc, Bool.false_eq_true, if_false] at h
              by_cases heq : pw = cpw
              · exact ⟨by omega, hboth.1, hboth.2, heq⟩
              · simp [heq] at h
    · rintro ⟨hlen, hu, hs, rfl⟩
      have hwe : jsTrimEmpty pw = false := containsUpper_not_trimEmpty pw hu
      have hus : upperSpecialTest pw = true := by
        unfold upperSpecialTest
        exact upperSpecial_complete pw.toList hnt
          (by unfold containsUpper at hu; exact hu)
          (by unfold containsSpecial at hs; exact hs)
      simp [hwe, hus, show ¬ pw.length < 8 by omega]
  · intro h hnone
    unfold resetPasswordSubmits at h
    rw [hnone] at h
    simp at h

/-- Witness for the amended C10 at concrete inputs. -/
theorem reset_password_submits_iff_valid_witness :
    resetPasswordSubmits "Abcdefg!" "Abcdefg!" = true ∧
    validatePasswordsError "abcdefgh" "abcdefgh" ≠ none :=
  ⟨((reset_password_submits_iff_valid "Abcdefg!" "Abcdefg!" (by decide)).1).mpr
      ⟨by decide, by decide, by decide, rfl⟩,
   (reset_password_submits_iff_valid "abcdefgh" "abcdefgh" (by decide)).2 (by decide)⟩

theorem digitChar_isDigit (k : Nat) (h : k < 10) :
    isAsciiDigit (Nat.digitChar k) = true := by
  interval_cases k <;> decide

theorem otpReachable_ok (st : OtpInputState) (h : OtpReachable st) : OtpSlotsOk st := by
  induction h with
  | init =>
    refine ⟨by simp [otpInitialState], ?_⟩
    intro x hx
    left
    rw [(List.eq_of_mem_replicate hx : x = "")]
    rfl
  | change st i v hst ih =>
    unfold otpHandleChange
    by_cases hv : singleDigitTest v = true
    · simp only [hv, if_true]
      refine ⟨by simp [List.length_set, ih.1], ?_⟩
      intro x hx
      rcases List.mem_or_eq_of_mem_set hx with hmem | rfl
      · exact ih.2 x hmem
      · right
        unfold singleDigitTest at hv
        split at hv
        · rename_i c heq
          exact ⟨c, hv, heq⟩
        · cases hv
    · simp only [hv, Bool.false_eq_true, if_false]
      exact ih

theorem otpCodeChars_digits (st : OtpInputState) (h : OtpSlotsOk st) :
    (otpCodeChars st).all isAsciiDigit = true := by
  unfold otpCodeChars
  refine List.all_eq_true.mpr ?_
  intro c hc
  rcases List.mem_flatten.mp hc with ⟨t, ht, hct⟩
  rcases List.mem_map.mp ht with ⟨x, hx, rfl⟩
  rcases h.2 x hx with hemp | ⟨d, hd, hxd⟩
  · rw [hemp] at hct; cases hct
  · rw [hxd] at hct
    rcases List.mem_singleton.mp hct with rfl
    exact hd

/-- C7: every OTP issued for the password-reset flow is a 6-digit numeric
code, and the frontend performs the verification request only on candidates
of exactly six decimal digits: in any reachable state of the input boxes a
submitted candidate is six decimal digits, a candidate of the wrong length is
rejected before the request, and a non-digit keystroke never enters the
candidate. -/
theorem otp_codes_are_six_digits :
    (∀ n : Nat, (padCode n).length = 6 ∧ (padCode n).toList.all isAsciiDigit = true)
  ∧ (∀ st, OtpReachable st → otpSubmitSends st = true →
      (otpJoin st).length = 6 ∧ (otpJoin st).toList.all isAsciiDigit = true)
  ∧ (∀ st, (otpJoin st).length ≠ 6 → otpSubmitSends st = false)
  ∧ (∀ st i v, singleDigitTest v = false → otpHandleChange st i v = st) := by
  have hd : ∀ x : Nat, isAsciiDigit (Nat.digitChar (x % 10)) = true :=
    fun x => digitChar_isDigit _ (Nat.mod_lt _ (by norm_num))
  refine ⟨?_, ?_, ?_, ?_⟩
  · intro n
    exact ⟨rfl, by simp [padCode, String.toList, List.all_cons, hd]⟩
  · intro st h hs
    simp only [otpSubmitSends, beq_iff_eq] at hs
    exact ⟨hs, otpCodeChars_digits st (otpReachable_ok st h)⟩
  · intro st h
    simp only [otpSubmitSends, beq_eq_false_iff_ne, ne_eq]
    exact h
  · intro st i v h
    simp [otpHandleChange, h]

/-- Witness for C7: a concrete keystroke sequence filling all six boxes. -/
theorem otp_codes_are_six_digits_witness :
    (padCode 7).length = 6 ∧
    (otpSubmitSends (otpHandleChange (otpHandleChange (otpHandleChange (otpHandleChange
      (otpHandleChange (otpHandleChange otpInitialState 0 "1") 1 "2") 2 "3") 3 "4")
        4 "5") 5 "6") = true ∧
     (otpJoin (otpHandleChange (otpHandleChange (otpHandleChange (otpHandleChange
      (otpHandleChange (otpHandleChange otpInitialState 0 "1") 1 "2") 2 "3") 3 "4")
        4 "5") 5 "6")).toList.all isAsciiDigit = true) := by
  refine ⟨(otp_codes_are_six_digits.1 7).1, by decide, ?_⟩
  exact (otp_codes_are_six_digits.2.1 _
    (OtpReachable.change _ 5 "6" (OtpReachable.change _ 4 "5" (OtpReachable.change _ 3 "4"
      (OtpReachable.change _ 2 "3" (OtpReachable.change _ 1 "2"
        (OtpReachable.change _ 0 "1" OtpReachable.init))))))
    (by decide)).2

/-- C8: when the request itself fails (backend or store unreachable), both the
forgot-password and OTP-verification handlers surface the dedicated network
error, which is distinct from every typed auth outcome message
(OTP_NOT_FOUND, OTP_MISMATCH, INVALID_TOKEN) a response can carry. -/
theorem network_failure_distinct_from_auth_outcomes :
    otpSubmitView .netFailure = ⟨"error", networkErrorMsg⟩
  ∧ forgotSubmitView .netFailure = ⟨"error", networkErrorMsg⟩
  ∧ (∀ m, otpSubmitView (.response false (some m)) = ⟨"error", m⟩)
  ∧ (∀ m, forgotSubmitView (.response false (some m)) = ⟨"error", m⟩)
  ∧ networkErrorMsg ≠ "OTP_NOT_FOUND"
  ∧ networkErrorMsg ≠ "OTP_MISMATCH"
  ∧ networkErrorMsg ≠ "INVALID_TOKEN"
  ∧ (∀ m, m ≠ networkErrorMsg →
      otpSubmitView (.response false (some m)) ≠ otpSubmitView .netFailure ∧
      forgotSubmitView (.response false (some m)) ≠ forgotSubmitView .netFailure) := by
  refine ⟨rfl, rfl, fun m => rfl, fun m => rfl, by decide, by decide, by decide, ?_⟩
  intro m hm
  constructor
  · intro hcontra
    exact hm (congrArg SubmitView.errorMsg hcontra)
  · intro hcontra
    exact hm (congrArg SubmitView.errorMsg hcontra)

/-- Witness for C8 at a concrete typed outcome. -/
theorem network_failure_distinct_witness :
    otpSubmitView (.response false (some "OTP_NOT_FOUND")) ≠ otpSubmitView .netFailure ∧
    forgotSubmitView (.response false (some "OTP_NOT_FOUND")) ≠ forgotSubmitView .netFailure :=
  (network_failure_distinct_from_auth_outcomes.2.2.2.2.2.2.2 "OTP_NOT_FOUND" (by decide))

/-
Helper lemmas on the backend model's stores.
-/

theorem lookupOtp_cons (a : OTPRecord) (l : List OTPRecord) (q : String) :
    lookupOtp (a :: l) q = if (a.phone == q) = true then some a else lookupOtp l q := by
  unfold lookupOtp
  cases haq : (a.phone == q) with
  | true => simp [List.find?, haq]
  | false => simp [List.find?, haq]

theorem removeOtp_cons (a : OTPRecord) (l : List OTPRecord) (p : String) :
    removeOtp (a :: l) p =
      if (a.phone == p) = true then removeOtp l p else a :: removeOtp l p := by
  unfold removeOtp
  rw [List.filter_cons]
  cases hap : (a.phone == p) with
  | true => simp
  | false => simp

theorem lookupOtp_updateOtp (l : List OTPRecord) (p q : String) (f : OTPRecord → OTPRecord)
    (hf : ∀ r, (f r).phone = r.phone) :
    lookupOtp (updateOtp l p f) q =
      (lookupOtp l q).map (fun r => if r.phone == p then f r else r) := by
  induction l with
  | nil => rfl
  | cons a l ih =>
    have hph : (if (a.phone == p) = true then f a else a).phone = a.phone := by
      split
      · exact hf a
      · rfl
    show lookupOtp ((if (a.phone == p) = true then f a else a) :: updateOtp l p f) q = _
    rw [lookupOtp_cons, hph, lookupOtp_cons]
    cases haq : (a.phone == q) with
    | true => simp
    | false => simp [ih]

theorem lookupOtp_removeOtp_ne (l : List OTPRecord) (p q : String) (hpq : p ≠ q) :
    lookupOtp (removeOtp l p) q = lookupOtp l q := by
  induction l with
  | nil => rfl
  | cons a l ih =>
    by_cases hap : (a.phone == p) = true
    · have h1 : a.phone = p := by simpa using hap
      have haq : (a.phone == q) = false := by
        rw [h1]; exact beq_eq_false_iff_ne.mpr hpq
      rw [removeOtp_cons, if_pos hap, ih, lookupOtp_cons, haq]
      simp
    · rw [removeOtp_cons, if_neg hap, lookupOtp_cons, lookupOtp_cons]
      cases haq : (a.phone == q) with
      | true => simp
      | false => simp [ih]

theorem lookupOtp_cons_ne (a : OTPRecord) (l : List OTPRecord) (q : String)
    (h : (a.phone == q) = false) : lookupOtp (a :: l) q = lookupOtp l q := by
  rw [lookupOtp_cons, h]
  simp

theorem lookupOtp_phone (l : List OTPRecord) (q : String) (r : OTPRecord)
    (h : lookupOtp l q = some r) : r.phone = q := by
  have := List.find?_some h
  simpa using this

theorem allRevokedAt_markRevoked (l : List RefreshRecord) (j k : Nat)
    (h : allRevokedAt l j) : allRevokedAt (markRevoked l k) j := by
  intro r2 hr2 hj
  unfold markRevoked at hr2
  rcases List.mem_map.mp hr2 with ⟨r, hr, heq⟩
  split at heq
  · rw [← heq]
  · rw [← heq]
    exact h r hr (by rw [← heq] at hj; exact hj)

theorem allRevokedAt_markRevoked_self (l : List RefreshRecord) (j : Nat) :
    allRevokedAt (markRevoked l j) j := by
  intro r2 hr2 hj
  unfold markRevoked at hr2
  rcases List.mem_map.mp hr2 with ⟨r, hr, heq⟩
  split at heq
  · rw [← heq]
  · rename_i hne
    rw [← heq] at hj
    exact absurd (by simp [hj]) hne

theorem allRevokedAt_revokeAllFor (l : List RefreshRecord) (j : Nat) (ph : String)
    (h : allRevokedAt l j) : allRevokedAt (revokeAllFor l ph) j := by
  intro r2 hr2 hj
  unfold revokeAllFor at hr2
  rcases List.mem_map.mp hr2 with ⟨r, hr, heq⟩
  split at heq
  · rw [← heq]
  · rw [← heq]
    exact h r hr (by rw [← heq] at hj; exact hj)

theorem allRevokedAt_cons (r0 : RefreshRecord) (l : List RefreshRecord) (j : Nat)
    (hne : r0.jti ≠ j) (h : allRevokedAt l j) : allRevokedAt (r0 :: l) j := by
  intro r hr hj
  rcases List.mem_cons.mp hr with rfl | hmem
  · exact absurd hj hne
  · exact h r hmem hj

theorem otpVerify_preserves_consumed (s : AuthState) (p cand : String) (now : Nat)
    (phone : String) (h : ConsumedOtpAt s phone) :
    ConsumedOtpAt (otpVerify s p cand now).2 phone := by
  unfold ConsumedOtpAt at h ⊢
  obtain ⟨r, hr, hc⟩ := h
  unfold otpVerify
  cases hl : lookupOtp s.otps p with
  | none => exact ⟨r, hr, hc⟩
  | some r2 =>
    dsimp only
    by_cases hcons : r2.consumed = true
    · rw [if_pos hcons]
      exact ⟨r, hr, hc⟩
    · rw [if_neg hcons]
      by_cases hp : p = phone
      · subst hp
        rw [hl] at hr
        injection hr with h2
        exact absurd (h2 ▸ hc) hcons
      · split
        · exact ⟨r, by rw [lookupOtp_removeOtp_ne _ _ _ hp]; exact hr, hc⟩
        · split
          · exact ⟨r, hr, hc⟩
          · have hrp : r.phone = phone := lookupOtp_phone _ _ _ hr
            have hne : (r.phone == p) = false := by
              rw [hrp]; exact beq_eq_false_iff_ne.mpr (Ne.symm hp)
            split
            · refine ⟨r, ?_, hc⟩
              dsimp only
              rw [lookupOtp_updateOtp, hr]
              · simp [hne]
                exact fun hq => absurd hq (beq_eq_false_iff_ne.mp hne)
              · intro q
                rfl
            · refine ⟨r, ?_, hc⟩
              dsimp only
              rw [lookupOtp_updateOtp, hr]
              · simp [hne]
                exact fun hq => absurd hq (beq_eq_false_iff_ne.mp hne)
              · intro q
                rfl

theorem otpIssue_preserves_consumed (s : AuthState) (p : String) (now : Nat)
    (phone : String) (hp : p ≠ phone) (h : ConsumedOtpAt s phone) :
    ConsumedOtpAt (otpIssue s p now).2 phone := by
  unfold ConsumedOtpAt at h ⊢
  obtain ⟨r, hr, hc⟩ := h
  refine ⟨r, ?_, hc⟩
  unfold otpIssue
  dsimp only
  rw [lookupOtp_cons, if_neg (by simp [hp]), lookupOtp_removeOtp_ne _ _ _ hp]
  exact hr

theorem resetPasswordOp_preserves_consumed (s : AuthState) (p2 pw : String) (now : Nat)
    (phone : String) (h : ConsumedOtpAt s phone) :
    ConsumedOtpAt (resetPasswordOp s p2 pw now).2 phone := by
  unfold ConsumedOtpAt at h ⊢
  obtain ⟨r, hr, hc⟩ := h
  unfold resetPasswordOp
  split
  · exact ⟨r, hr, hc⟩
  · split
    · exact ⟨r, hr, hc⟩
    · refine ⟨if (r.phone == p2) = true then { r with resetApplied := true } else r, ?_, ?_⟩
      · dsimp only
        rw [lookupOtp_updateOtp, hr]
        · rfl
        · intro q
          rfl
      · split
        · exact hc
        · exact hc

theorem stepOp_preserves_consumed (s : AuthState) (op : AuthOp) (now : Nat)
    (phone : String) (hop : issuesOtpFor op phone = false)
    (h : ConsumedOtpAt s phone) : ConsumedOtpAt (stepOp s op now) phone := by
  cases op with
  | register ip p pw role =>
    simp only [stepOp, registerOp]
    split
    · exact h
    · split <;> exact h
  | login ip p pw =>
    simp only [stepOp, loginOp, issuePair]
    split
    · exact h
    · split
      · exact h
      · split <;> exact h
  | refresh tok =>
    simp only [stepOp, rotate]
    split
    · exact h
    · split
      · exact h
      · split
        · exact h
        · split <;> exact h
  | logout atok rtok =>
    exact h
  | forgotPassword ip p =>
    have hp : p ≠ phone := beq_eq_false_iff_ne.mp (by simpa [issuesOtpFor] using hop)
    simp only [stepOp, forgotPasswordOp]
    split
    · exact h
    · exact otpIssue_preserves_consumed _ _ _ _ hp h
  | verifyOtp ip p code =>
    simp only [stepOp, verifyOtpOp]
    split
    · exact h
    · exact otpVerify_preserves_consumed _ _ _ _ _ h
  | resendOtp ip p =>
    have hp : p ≠ phone := beq_eq_false_iff_ne.mp (by simpa [issuesOtpFor] using hop)
    simp only [stepOp, forgotPasswordOp]
    split
    · exact h
    · exact otpIssue_preserves_consumed _ _ _ _ hp h
  | resetPassword p pw =>
    exact resetPasswordOp_preserves_consumed _ _ _ _ _ h

theorem stepOp_nextJti_mono (s : AuthState) (op : AuthOp) (now : Nat) :
    s.nextJti ≤ (stepOp s op now).nextJti := by
  cases op with
  | register ip p pw role =>
    simp only [stepOp, registerOp]
    split
    · exact Nat.le_refl _
    · split <;> exact Nat.le_refl _
  | login ip p pw =>
    simp only [stepOp, loginOp, issuePair]
    split
    · exact Nat.le_refl _
    · split
      · exact Nat.le_refl _
      · split
        · exact Nat.le_add_right _ _
        · exact Nat.le_refl _
  | refresh tok =>
    simp only [stepOp, rotate]
    split
    · exact Nat.le_refl _
    · split
      · exact Nat.le_refl _
      · split
        · exact Nat.le_refl _
        · split
          · exact Nat.le_refl _
          · exact Nat.le_add_right _ _
  | logout atok rtok => exact Nat.le_refl _
  | forgotPassword ip p =>
    simp only [stepOp, forgotPasswordOp, otpIssue]
    split <;> exact Nat.le_refl _
  | verifyOtp ip p code =>
    simp only [stepOp, verifyOtpOp, otpVerify]
    split
    · exact Nat.le_refl _
    · split
      · exact Nat.le_refl _
      · split
        · exact Nat.le_refl _
        · split
          · exact Nat.le_refl _
          · split
            · exact Nat.le_refl _
            · split <;> exact Nat.le_refl _
  | resendOtp ip p =>
    simp only [stepOp, forgotPasswordOp, otpIssue]
    split <;> exact Nat.le_refl _
  | resetPassword p pw =>
    simp only [stepOp, resetPasswordOp]
    split
    · exact Nat.le_refl _
    · split <;> exact Nat.le_refl _

theorem stepOp_allRevoked (s : AuthState) (op : AuthOp) (now : Nat) (j : Nat)
    (hj : j < s.nextJti) (h : allRevokedAt s.refreshRecords j) :
    allRevokedAt (stepOp s op now).refreshRecords j := by
  cases op with
  | register ip p pw role =>
    simp only [stepOp, registerOp]
    split
    · exact h
    · split <;> exact h
  | login ip p pw =>
    simp only [stepOp, loginOp, issuePair]
    split
    · exact h
    · split
      · exact h
      · split
        · exact allRevokedAt_cons _ _ _ (by simp; omega) h
        · exact h
  | refresh tok =>
    simp only [stepOp, rotate]
    split
    · exact h
    · split
      · exact h
      · split
        · exact h
        · split
          · exact h
          · exact allRevokedAt_cons _ _ _ (by simp; omega)
              (allRevokedAt_markRevoked _ _ _ h)
  | logout atok rtok =>
    exact allRevokedAt_markRevoked _ _ _ h
  | forgotPassword ip p =>
    simp only [stepOp, forgotPasswordOp, otpIssue]
    split <;> exact h
  | verifyOtp ip p code =>
    simp only [stepOp, verifyOtpOp, otpVerify]
    split
    · exact h
    · split
      · exact h
      · split
        · exact h
        · split
          · exact h
          · split
            · exact h
            · split <;> exact h
  | resendOtp ip p =>
    simp only [stepOp, forgotPasswordOp, otpIssue]
    split <;> exact h
  | resetPassword p pw =>
    simp only [stepOp, resetPasswordOp]
    split
    · exact h
    · split
      · exact h
      · exact allRevokedAt_revokeAllFor _ _ _ h

theorem stepOp_rev_mono (s : AuthState) (op : AuthOp) (now : Nat) (e : RevocationEntry)
    (he : e ∈ s.revocations) : e ∈ (stepOp s op now).revocations := by
  cases op with
  | register ip p pw role =>
    simp only [stepOp, registerOp]
    split
    · exact he
    · split <;> exact he
  | login ip p pw =>
    simp only [stepOp, loginOp, issuePair]
    split
    · exact he
    · split
      · exact he
      · split <;> exact he
  | refresh tok =>
    simp only [stepOp, rotate]
    split
    · exact he
    · split
      · exact he
      · split
        · exact he
        · split
          · exact he
          · exact List.mem_cons_of_mem _ he
  | logout atok rtok =>
    exact List.mem_cons_of_mem _ (List.mem_cons_of_mem _ he)
  | forgotPassword ip p =>
    simp only [stepOp, forgotPasswordOp, otpIssue]
    split <;> exact he
  | verifyOtp ip p code =>
    simp only [stepOp, verifyOtpOp, otpVerify]
    split
    · exact he
    · split
      · exact he
      · split
        · exact he
        · split
          · exact he
          · split
            · exact he
            · split <;> exact he
  | resendOtp ip p =>
    simp only [stepOp, forgotPasswordOp, otpIssue]
    split <;> exact he
  | resetPassword p pw =>
    simp only [stepOp, resetPasswordOp]
    split
    · exact he
    · split <;> exact he

theorem runOps_allRevoked (ops : List (AuthOp × Nat)) (s : AuthState) (j : Nat)
    (hj : j < s.nextJti) (h : allRevokedAt s.refreshRecords j) :
    allRevokedAt (runOps s ops).refreshRecords j := by
  induction ops generalizing s with
  | nil => exact h
  | cons p ops ih =>
    exact ih (stepOp s p.1 p.2)
      (Nat.lt_of_lt_of_le hj (stepOp_nextJti_mono s p.1 p.2))
      (stepOp_allRevoked s p.1 p.2 j hj h)

theorem runOps_rev_mono (ops : List (AuthOp × Nat)) (s : AuthState) (e : RevocationEntry)
    (he : e ∈ s.revocations) : e ∈ (runOps s ops).revocations := by
  induction ops generalizing s with
  | nil => exact he
  | cons p ops ih =>
    exact ih (stepOp s p.1 p.2) (stepOp_rev_mono s p.1 p.2 e he)

theorem runOps_preserves_consumed (ops : List (AuthOp × Nat)) (s : AuthState)
    (phone : String) (hops : ∀ p ∈ ops, issuesOtpFor p.1 phone = false)
    (h : ConsumedOtpAt s phone) : ConsumedOtpAt (runOps s ops) phone := by
  induction ops generalizing s with
  | nil => exact h
  | cons p ops ih =>
    exact ih (stepOp s p.1 p.2)
      (fun q hq => hops q (List.mem_cons_of_mem p hq))
      (stepOp_preserves_consumed s p.1 p.2 phone
        (hops p (List.mem_cons_self p ops)) h)

theorem rotate_invalid_of_allRevoked (s : AuthState) (tok : RefreshToken) (now : Nat)
    (h : allRevokedAt s.refreshRecords tok.jti) :
    (rotate s tok now).1 = .INVALID_TOKEN := by
  unfold rotate
  split
  · rfl
  · split
    · rfl
    · rename_i r hl
      have hm := List.mem_of_find?_eq_some hl
      have hj : r.jti = tok.jti := by simpa using List.find?_some hl
      have hrev : r.revoked = true := h r hm hj
      simp [hrev]

theorem rotate_invalid_of_revEntry (s : AuthState) (tok : RefreshToken) (now : Nat)
    (h : (⟨tok.jti, tok.expiresAt⟩ : RevocationEntry) ∈ s.revocations) :
    (rotate s tok now).1 = .INVALID_TOKEN := by
  unfold rotate
  split
  · rfl
  · rename_i hnow
    split
    · rfl
    · rename_i r hl
      have hj : r.jti = tok.jti := by simpa using List.find?_some hl
      have hcont : revContains s.revocations r.jti now = true := by
        unfold revContains
        refine List.any_eq_true.mpr ⟨⟨tok.jti, tok.expiresAt⟩, h, ?_⟩
        simp [hj]
        omega
      simp [hcont]

theorem rotate_ok_state (s : AuthState) (tok : RefreshToken) (now : Nat)
    (hWF : RefreshWF s) (h : (rotate s tok now).1 ≠ .INVALID_TOKEN) :
    tok.jti < (rotate s tok now).2.nextJti ∧
      allRevokedAt (rotate s tok now).2.refreshRecords tok.jti := by
  unfold rotate at h ⊢
  split at h
  · simp at h
  · rename_i hnow
    split at h
    · simp at h
    · rename_i r heq
      split at h
      · simp at h
      · rename_i hcond
        split at h
        · simp at h
        · rename_i acct heqa
          have hmem := List.mem_of_find?_eq_some heq
          have hj : r.jti = tok.jti := by simpa using List.find?_some heq
          have hlt : tok.jti < s.nextJti := hj ▸ hWF r hmem
          rw [if_neg hnow]
          simp only [heq, if_neg hcond, heqa]
          constructor
          · omega
          · exact allRevokedAt_cons _ _ _ (by simp; omega)
              (allRevokedAt_markRevoked_self _ _)

/-- C1: a refresh token that has been used successfully in one `rotate` call,
or explicitly revoked at logout, yields INVALID_TOKEN on every subsequent
`refresh` call presenting that same token, whatever operations run in between
and even before the token's recorded expiry. -/
theorem rotated_or_revoked_token_never_reusable (s : AuthState) (tok : RefreshToken)
    (now : Nat) (hWF : RefreshWF s) :
    ((rotate s tok now).1 ≠ .INVALID_TOKEN →
       ∀ ops now2, (rotate (runOps (rotate s tok now).2 ops) tok now2).1 = .INVALID_TOKEN)
  ∧ (∀ atok ops now2,
       (rotate (runOps (revoke s atok tok now) ops) tok now2).1 = .INVALID_TOKEN) := by
  constructor
  · intro h ops now2
    obtain ⟨hj, hrev⟩ := rotate_ok_state s tok now hWF h
    exact rotate_invalid_of_allRevoked _ _ _ (runOps_allRevoked ops _ _ hj hrev)
  · intro atok ops now2
    apply rotate_invalid_of_revEntry
    apply runOps_rev_mono
    unfold revoke revPut
    exact List.mem_cons_of_mem _ (List.mem_cons_self _ _)

/-- Witness for C1: a concrete registered-and-logged-in state whose refresh
token is rotated once (or revoked at logout) and then replayed. -/
theorem rotated_or_revoked_token_never_reusable_witness :
    (rotate
      (runOps
        (rotate
          (loginOp (registerOp initialAuthState "ip" "923001234567" "Pw1" "customer" 0).2
            "ip" "923001234567" "Pw1" 1).2
          ⟨1, "923001234567", 604801⟩ 2).2
        [(AuthOp.forgotPassword "ip" "923001234567", 3)])
      ⟨1, "923001234567", 604801⟩ 4).1 = .INVALID_TOKEN ∧
    (rotate
      (runOps
        (revoke
          (loginOp (registerOp initialAuthState "ip" "923001234567" "Pw1" "customer" 0).2
            "ip" "923001234567" "Pw1" 1).2
          ⟨"923001234567", "customer", 1, 3601, 0⟩ ⟨1, "923001234567", 604801⟩ 2)
        [])
      ⟨1, "923001234567", 604801⟩ 3).1 = .INVALID_TOKEN := by
  constructor
  · exact (rotated_or_revoked_token_never_reusable _ ⟨1, "923001234567", 604801⟩ 2
      (by unfold RefreshWF; decide)).1 (by decide)
      [(AuthOp.forgotPassword "ip" "923001234567", 3)] 4
  · exact (rotated_or_revoked_token_never_reusable _ ⟨1, "923001234567", 604801⟩ 2
      (by unfold RefreshWF; decide)).2 ⟨"923001234567", "customer", 1, 3601, 0⟩ [] 3

/-- C2: immediately after `logout`, the access token the session held verifies
INVALID (at any verification time), the session's refresh token is revoked on
its record, and a revocation entry is recorded for the refresh token's jti. -/
theorem logout_rejects_access_and_revokes_refresh (s : AuthState)
    (atok : AccessToken) (rtok : RefreshToken) (now tv : Nat) :
    verifyAccess (revoke s atok rtok now) atok tv = .INVALID
  ∧ (⟨rtok.jti, rtok.expiresAt⟩ : RevocationEntry) ∈ (revoke s atok rtok now).revocations
  ∧ allRevokedAt (revoke s atok rtok now).refreshRecords rtok.jti := by
  refine ⟨?_, ?_, ?_⟩
  · unfold verifyAccess
    split
    · rfl
    · rename_i hnow
      have hcont : revContains (revoke s atok rtok now).revocations atok.jti tv = true := by
        unfold revoke revContains revPut
        refine List.any_eq_true.mpr ⟨⟨atok.jti, atok.expiresAt⟩, List.mem_cons_self _ _, ?_⟩
        simp
        omega
      simp [hcont]
  · unfold revoke revPut
    exact List.mem_cons_of_mem _ (List.mem_cons_self _ _)
  · unfold revoke
    exact allRevokedAt_markRevoked_self _ _

/-- C3: `reset_password` succeeds only when the most recent OTP record for the
phone is consumed and not yet used for a reset; the stored password hashes are
mutated only under that gate; without it the call fails RESET_NOT_READY and
leaves the state unchanged. -/
theorem reset_password_requires_consumed_otp (s : AuthState) (phone newPw : String)
    (now : Nat) :
    ((resetPasswordOp s phone newPw now).1 = .ok → resetGate s phone = true)
  ∧ ((resetPasswordOp s phone newPw now).2.accounts ≠ s.accounts → resetGate s phone = true)
  ∧ (resetGate s phone = false →
      (resetPasswordOp s phone newPw now).1 = .RESET_NOT_READY ∧
      (resetPasswordOp s phone newPw now).2 = s) := by
  by_cases hg : resetGate s phone = true
  · refine ⟨fun _ => hg, fun _ => hg, fun hfalse => absurd hg (by simp [hfalse])⟩
  · have hgf : resetGate s phone = false := by
      cases hval : resetGate s phone
      · rfl
      · exact absurd hval hg
    refine ⟨?_, ?_, fun _ => ?_⟩
    · intro hcontra
      unfold resetPasswordOp at hcontra
      rw [if_pos (by simp [hgf])] at hcontra
      cases hcontra
    · intro hcontra
      unfold resetPasswordOp at hcontra
      rw [if_pos (by simp [hgf])] at hcontra
      exact absurd rfl hcontra
    · unfold resetPasswordOp
      rw [if_pos (by simp [hgf])]
      exact ⟨rfl, rfl⟩

/-- Witness for C3: with no OTP record at all, the reset fails and the state
is untouched. -/
theorem reset_password_requires_consumed_otp_witness :
    (resetPasswordOp initialAuthState "923001234567" "NewPass1!" 0).1 = .RESET_NOT_READY ∧
    (resetPasswordOp initialAuthState "923001234567" "NewPass1!" 0).2 = initialAuthState :=
  (reset_password_requires_consumed_otp initialAuthState "923001234567" "NewPass1!" 0).2.2
    (by decide)

theorem otpVerify_VERIFIED_consumed (s : AuthState) (phone cand : String) (now : Nat)
    (h : (otpVerify s phone cand now).1 = .VERIFIED) :
    ConsumedOtpAt (otpVerify s phone cand now).2 phone := by
  unfold otpVerify at h ⊢
  split at h
  · simp at h
  · rename_i r hl
    split at h
    · simp at h
    · rename_i hcons
      split at h
      · simp at h
      · rename_i hexp
        split at h
        · simp at h
        · rename_i hlock
          split at h
          · simp at h
          · rename_i hne
            have hrp : (r.phone == phone) = true := by
              simp [lookupOtp_phone _ _ _ hl]
            unfold ConsumedOtpAt
            refine ⟨{ r with consumed := true }, ?_, rfl⟩
            rw [if_neg hcons, if_neg hexp, if_neg hlock, if_neg hne]
            dsimp only
            rw [lookupOtp_updateOtp, hl]
            · simp [hrp]
              intro hq
              exact absurd (by simpa using hrp) hq
            · intro q
              rfl

/-- C4: an OTP record verifies VERIFIED at most once — after a successful
verification, verifying again for the same phone (the same code or any other)
returns NOT_FOUND, immediately and after any further operations that do not
issue a new OTP for that phone. -/
theorem verified_otp_cannot_verify_again (s : AuthState) (phone cand : String)
    (now : Nat) (h : (otpVerify s phone cand now).1 = .VERIFIED) :
    (∀ cand2 now2,
       (otpVerify (otpVerify s phone cand now).2 phone cand2 now2).1 = .NOT_FOUND)
  ∧ (∀ ops, (∀ p ∈ ops, issuesOtpFor p.1 phone = false) →
       ∀ cand2 now2,
         (otpVerify (runOps (otpVerify s phone cand now).2 ops) phone cand2 now2).1
           = .NOT_FOUND) := by
  have hcons := otpVerify_VERIFIED_consumed s phone cand now h
  have hnf : ∀ s2, ConsumedOtpAt s2 phone →
      ∀ c t, (otpVerify s2 phone c t).1 = .NOT_FOUND := by
    rintro s2 ⟨r, hr, hc⟩ c t
    unfold otpVerify
    simp only [hr]
    rw [if_pos hc]
  constructor
  · intro c t
    exact hnf _ hcons c t
  · intro ops hops c t
    exact hnf _ (runOps_preserves_consumed ops _ phone hops hcons) c t

/-- Witness for C4: issue an OTP, verify it, verify it again. -/
theorem verified_otp_cannot_verify_again_witness :
    (otpVerify
      (otpVerify (otpIssue initialAuthState "923001234567" 0).2 "923001234567" "000000" 1).2
      "923001234567" "000000" 2).1 = .NOT_FOUND :=
  (verified_otp_cannot_verify_again (otpIssue initialAuthState "923001234567" 0).2
    "923001234567" "000000" 1 (by decide)).1 "000000" 2

theorem otpVerify_MISMATCH_step (s : AuthState) (phone cand : String) (now : Nat)
    (r : OTPRecord) (hr : lookupOtp s.otps phone = some r) (hc : r.consumed = false)
    (hexp : ¬ r.expiresAt < now) (hatt : r.attempts < otpCeiling)
    (hne : hashStr cand ≠ r.codeHash) :
    (otpVerify s phone cand now).1 = .MISMATCH ∧
    lookupOtp (otpVerify s phone cand now).2.otps phone
        = some { r with attempts := r.attempts + 1 } := by
  unfold otpVerify
  simp only [hr]
  rw [if_neg (by simp [hc]), if_neg hexp, if_neg (by omega), if_pos hne]
  refine ⟨rfl, ?_⟩
  have hrp : (r.phone == phone) = true := by
    simp [lookupOtp_phone _ _ _ hr]
  dsimp only
  rw [lookupOtp_updateOtp, hr]
  · simp [hrp]
    intro hq
    exact absurd (by simpa using hrp) hq
  · intro q
    rfl

/-- C5: starting from a live OTP record with a clean attempt count, five
verifications with wrong codes each return MISMATCH, after which every
further verify for that phone — with any candidate, the correct code
included — returns LOCKED while the record is live; issuing a new OTP for the
phone clears the lock and the fresh code verifies. -/
theorem otp_locked_after_five_wrong (s : AuthState) (phone : String) (r : OTPRecord)
    (now : Nat) (c1 c2 c3 c4 c5 : String)
    (hr : lookupOtp s.otps phone = some r) (hcons : r.consumed = false)
    (hatt : r.attempts = 0) (hlive : now ≤ r.expiresAt)
    (h1 : hashStr c1 ≠ r.codeHash) (h2 : hashStr c2 ≠ r.codeHash)
    (h3 : hashStr c3 ≠ r.codeHash) (h4 : hashStr c4 ≠ r.codeHash)
    (h5 : hashStr c5 ≠ r.codeHash) :
    (otpVerify s phone c1 now).1 = .MISMATCH
  ∧ (otpVerify (otpVerify s phone c1 now).2 phone c2 now).1 = .MISMATCH
  ∧ (otpVerify (otpVerify (otpVerify s phone c1 now).2 phone c2 now).2
      phone c3 now).1 = .MISMATCH
  ∧ (otpVerify (otpVerify (otpVerify (otpVerify s phone c1 now).2 phone c2 now).2
      phone c3 now).2 phone c4 now).1 = .MISMATCH
  ∧ (otpVerify (otpVerify (otpVerify (otpVerify (otpVerify s phone c1 now).2
      phone c2 now).2 phone c3 now).2 phone c4 now).2 phone c5 now).1 = .MISMATCH
  ∧ (∀ cand now2, now2 ≤ r.expiresAt →
      (otpVerify (otpVerify (otpVerify (otpVerify (otpVerify (otpVerify s phone c1 now).2
        phone c2 now).2 phone c3 now).2 phone c4 now).2 phone c5 now).2
        phone cand now2).1 = .LOCKED)
  ∧ (∀ tI tV, tV ≤ tI + otpTTL →
      (otpVerify
        (otpIssue (otpVerify (otpVerify (otpVerify (otpVerify (otpVerify s phone c1 now).2
          phone c2 now).2 phone c3 now).2 phone c4 now).2 phone c5 now).2 phone tI).2
        phone
        (otpIssue (otpVerify (otpVerify (otpVerify (otpVerify (otpVerify s phone c1 now).2
          phone c2 now).2 phone c3 now).2 phone c4 now).2 phone c5 now).2 phone tI).1
        tV).1 = .VERIFIED) := by
  have hco : otpCeiling = 5 := rfl
  obtain ⟨m1, l1⟩ := otpVerify_MISMATCH_step s phone c1 now r hr hcons
    (by omega) (by omega) h1
  obtain ⟨m2, l2⟩ := otpVerify_MISMATCH_step _ phone c2 now _ l1 hcons
    (by dsimp only; omega) (by dsimp only; omega) h2
  obtain ⟨m3, l3⟩ := otpVerify_MISMATCH_step _ phone c3 now _ l2 hcons
    (by dsimp only; omega) (by dsimp only; omega) h3
  obtain ⟨m4, l4⟩ := otpVerify_MISMATCH_step _ phone c4 now _ l3 hcons
    (by dsimp only; omega) (by dsimp only; omega) h4
  obtain ⟨m5, l5⟩ := otpVerify_MISMATCH_step _ phone c5 now _ l4 hcons
    (by dsimp only; omega) (by dsimp only; omega) h5
  refine ⟨m1, m2, m3, m4, m5, ?_, ?_⟩
  · intro cand now2 hn2
    set S5 := (otpVerify (otpVerify (otpVerify (otpVerify (otpVerify s phone c1 now).2
      phone c2 now).2 phone c3 now).2 phone c4 now).2 phone c5 now).2 with hS5
    unfold otpVerify
    simp only [l5]
    rw [if_neg (by simp [hcons]),
        if_neg (by omega),
        if_pos (by omega)]
  · intro tI tV htV
    set S5 := (otpVerify (otpVerify (otpVerify (otpVerify (otpVerify s phone c1 now).2
      phone c2 now).2 phone c3 now).2 phone c4 now).2 phone c5 now).2 with hS5
    unfold otpIssue
    dsimp only
    unfold otpVerify
    rw [lookupOtp_cons, if_pos (by simp)]
    dsimp only
    rw [if_neg (by simp),
        if_neg (by omega),
        if_neg (by omega),
        if_neg (fun hcc => hcc rfl)]

/-- Witness for C5: a concrete record locked by five wrong submissions; the
correct code is then refused. -/
theorem otp_locked_after_five_wrong_witness :
    (otpVerify (otpVerify (otpVerify (otpVerify (otpVerify (otpVerify
        (otpIssue initialAuthState "923001234567" 0).2
        "923001234567" "111111" 1).2 "923001234567" "111111" 1).2
        "923001234567" "111111" 1).2 "923001234567" "111111" 1).2
        "923001234567" "111111" 1).2 "923001234567" "000000" 2).1 = .LOCKED :=
  (otp_locked_after_five_wrong (otpIssue initialAuthState "923001234567" 0).2
      "923001234567" ⟨"923001234567", hashStr "000000", 0, 0 + otpTTL, 0, false, false⟩ 1
      "111111" "111111" "111111" "111111" "111111"
      (by decide) rfl rfl (by decide)
      (by decide) (by decide) (by decide) (by decide) (by decide)).2.2.2.2.2.1
    "000000" 2 (by decide)

/-- C6: a successful `login` returns a freshly minted pair of both an access
token and a refresh token: the access token carries the account id and role
with a short TTL, the refresh token carries a distinct fresh jti with the long
TTL, neither jti collides with any persisted record, and the refresh record is
persisted at rotation-generation 0 with revoked = false. -/
theorem login_returns_fresh_pair (s : AuthState) (ip phone password : String)
    (now : Nat) (a : Account)
    (hacct : lookupAccount s.accounts phone = some a)
    (hpw : hashStr password = a.passwordHash)
    (hperm : (rlAllow s.rateCounters (ip ++ "|login|" ++ phone) 10 60 now).1 = true)
    (hWF : RefreshWF s) :
    ∃ atok rtok,
      (loginOp s ip phone password now).1 = .ok atok rtok ∧
      atok.accountId = phone ∧ atok.role = a.role ∧
      atok.issuedAt = now ∧ atok.expiresAt = now + accessTTL ∧
      rtok.accountId = phone ∧ rtok.expiresAt = now + refreshTTL ∧
      atok.jti ≠ rtok.jti ∧
      (∀ rr ∈ s.refreshRecords, rr.jti ≠ atok.jti ∧ rr.jti ≠ rtok.jti) ∧
      (∃ rr ∈ (loginOp s ip phone password now).2.refreshRecords,
        rr.jti = rtok.jti ∧ rr.accountId = phone ∧ rr.generation = 0 ∧
        rr.revoked = false) := by
  have hphone : a.phone = phone := by simpa using List.find?_some hacct
  have hred : (loginOp s ip phone password now)
      = (.ok ⟨a.phone, a.role, now, now + accessTTL, s.nextJti⟩
            ⟨s.nextJti + 1, a.phone, now + refreshTTL⟩,
         { s with
             rateCounters := (rlAllow s.rateCounters (ip ++ "|login|" ++ phone) 10 60 now).2,
             refreshRecords :=
               (⟨s.nextJti + 1, a.phone, now, now + refreshTTL, 0, false⟩ : RefreshRecord)
                 :: s.refreshRecords,
             nextJti := s.nextJti + 2 }) := by
    simp only [loginOp, issuePair]
    rw [hperm]
    simp only [Bool.not_true, Bool.false_eq_true, if_false, hacct]
    rw [if_pos (by simp [hpw])]
  refine ⟨⟨a.phone, a.role, now, now + accessTTL, s.nextJti⟩,
          ⟨s.nextJti + 1, a.phone, now + refreshTTL⟩,
          by rw [hred], hphone, rfl, rfl, rfl, hphone, rfl, by simp, ?_, ?_⟩
  · intro rr hrr
    have := hWF rr hrr
    constructor
    · simp
      omega
    · simp
      omega
  · refine ⟨⟨s.nextJti + 1, a.phone, now, now + refreshTTL, 0, false⟩, ?_, rfl, hphone,
      rfl, rfl⟩
    rw [hred]
    exact List.mem_cons_self _ _

/-- Witness for C6 at a concrete registered account. -/
theorem login_returns_fresh_pair_witness :
    ∃ atok rtok,
      (loginOp (registerOp initialAuthState "ip" "923001234567" "Pw1" "customer" 0).2
        "ip" "923001234567" "Pw1" 1).1 = .ok atok rtok ∧
      atok.accountId = "923001234567" ∧ atok.role = "customer" ∧
      atok.issuedAt = 1 ∧ atok.expiresAt = 1 + accessTTL ∧
      rtok.accountId = "923001234567" ∧ rtok.expiresAt = 1 + refreshTTL ∧
      atok.jti ≠ rtok.jti := by
  obtain ⟨atok, rtok, h1, h2, h3, h4, h5, h6, h7, h8, -⟩ :=
    login_returns_fresh_pair
      (registerOp initialAuthState "ip" "923001234567" "Pw1" "customer" 0).2
      "ip" "923001234567" "Pw1" 1 ⟨"923001234567", hashStr "Pw1", "customer", true⟩
      (by decide) rfl (by decide) (by unfold RefreshWF; decide)
  exact ⟨atok, rtok, h1, h2, h3, h4, h5, h6, h7, h8⟩
